import Mathlib

/-!
A shallow embedding of the ARTMIPStandardizer repository
(`ARTMIPStandardizer.py`, `artmip_corrections.py`) and proofs about it.

Modelling conventions:
* Coordinate and data values are `Int`.  All longitudes and times appearing in
  these datasets are integer-valued quantities far below the scale at which
  `np.isclose` / `np.allclose` (atol 1e-8, rtol 1e-5) could identify two
  distinct integers, so the floating-point closeness tests of the source
  collapse to exact equality on the embedded values.
* Errors raised by the Python code (RuntimeError, ValueError, KeyError,
  AttributeError, UnboundLocalError) are modelled with `Except PyErr`.
* A data variable's array is `List (List (List Int))`, indexed time-major as
  time x lat x lon, matching the (time, lat, lon) dimension order of the
  ARTMIP datasets.
-/

namespace ARTMIP

/-- Errors the embedded code can raise, mirroring the Python exceptions. -/
inductive PyErr where
  /-- `ValueError` from a broadcasting failure in `np.isclose`/`np.allclose`. -/
  | broadcastError
  /-- `RuntimeError` in `swap_lon_convention`: longitudes differ but both
  datasets were classified with the same convention. -/
  | conventionMismatch
  /-- `RuntimeError` in `rotate_longitudes`: longitude 0 absent from the
  ARTMIP dataset. -/
  | zeroNotInArtmip
  /-- `RuntimeError` in `rotate_longitudes`: longitude 0 absent from the
  input (reference) dataset. -/
  | zeroNotInInput
  /-- `RuntimeError` in `rotate_longitudes`: rolling (and flipping) did not
  reproduce the reference longitudes. -/
  | unresolvableLongitudeMismatch
  /-- `RuntimeError` in `insert_missing_times`: ARTMIP times are not a subset
  of the input times. -/
  | timeDomainMismatch
  /-- `ValueError` from `reindex` on an index with duplicate values. -/
  | duplicateTimeIndex
  /-- `ValueError` from `assign_coords` when the new coordinate's length
  conflicts with the existing dimension size. -/
  | conflictingTimeSizes
  /-- `KeyError` from a missing dictionary/attribute key. -/
  | keyError
  /-- `AttributeError` from calling `.items()` on `None`
  (`metadata_dict`/`artmip_metadata_dict` left at their default). -/
  | attributeErrorNoneItems
  /-- `UnboundLocalError` in `apply_corrections`: the local `output_xr` is
  read after a loop over an empty correction plan never assigned it. -/
  | unboundLocalOutputXr
  /-- A correction's apply phase produced something other than a dataset
  (unreachable for the registered corrections). -/
  | notADataset
deriving DecidableEq, Repr

/-- A coordinate variable: an array of values plus an attribute map. -/
structure Coord where
  values : List Int
  attrs : List (String × String)
deriving DecidableEq, Repr

/-- A data variable: a name, a time x lat x lon array of values, and the
variable's configured fill value (if any). -/
structure DataVar where
  name : String
  values : List (List (List Int))
  fillValue : Option Int
  attrs : List (String × String) := []
deriving DecidableEq, Repr

instance : Inhabited DataVar := ⟨⟨"", [], none, []⟩⟩

/-- An `xarray.Dataset` as used by this repository: `time`/`lat`/`lon`
coordinates, data variables, and dataset-level attributes. -/
structure Dataset where
  time : Coord
  lat : Coord
  lon : Coord
  dataVars : List DataVar
  attrs : List (String × String)
deriving DecidableEq, Repr

/-- Set a key in an association list (Python dict assignment: replace the
existing entry, otherwise append). -/
def assocSet {β : Type} (l : List (String × β)) (k : String) (v : β) :
    List (String × β) :=
  match l with
  | [] => [(k, v)]
  | (k', v') :: rest =>
    if k' = k then (k, v) :: rest else (k', v') :: assocSet rest k v

/-- `all(np.isclose(a, b))` on integer-valued arrays: exact elementwise
equality, with numpy broadcasting of a length-1 operand and a `ValueError`
on any other shape mismatch. -/
def npAllClose (a b : List Int) : Except PyErr Bool :=
  if a.length = b.length then
    .ok ((a.zip b).all fun p => p.1 == p.2)
  else if a.length = 1 then
    .ok (b.all fun v => v == a.getD 0 0)
  else if b.length = 1 then
    .ok (a.all fun v => v == b.getD 0 0)
  else .error .broadcastError

/-- `.min()` of a coordinate array (the arrays this code reduces are
nonempty; the `[]` case is junk). -/
def lonMin (l : List Int) : Int :=
  match l with
  | [] => 0
  | x :: xs => xs.foldl min x

/-- `.max()` of a coordinate array. -/
def lonMax (l : List Int) : Int :=
  match l with
  | [] => 0
  | x :: xs => xs.foldl max x

/-- First index at which `t` occurs in `l` (`np.nonzero(values == t)[0][0]`,
or label lookup), `none` when absent. -/
def firstIdxOf (l : List Int) (t : Int) : Option Nat :=
  match l with
  | [] => none
  | x :: xs => if x = t then some 0 else (firstIdxOf xs t).map (· + 1)

/-- `np.nonzero(values == 0)[0][0]` as an `Option`. -/
def firstZeroIdx (l : List Int) : Option Nat :=
  firstIdxOf l 0

/-- `np.roll(l, k)`: element `i` of the result is element `(i - k) mod n` of
`l` (cyclic shift towards higher indices by `k`, `k` may be negative). -/
def npRoll (l : List Int) (k : Int) : List Int :=
  (List.range l.length).map
    (fun (i : Nat) => l.getD ((((i : Int)) - k).emod (l.length : Int)).toNat 0)

/-- The convention flip performed on `rolled_lon` inside
`rotate_longitudes`' determine phase: if the minimum is negative, map
`v < 0 → v + 360`; otherwise map `v > 180 → v - 360`. -/
def flipConvention (l : List Int) : List Int :=
  if lonMin l < 0 then l.map (fun v => if v < 0 then v + 360 else v)
  else l.map (fun v => if v > 180 then v - 360 else v)

/-- Result of calling a correction function: `determine_only` returns a
boolean, `apply_only` returns a dataset. -/
inductive Ret where
  | b (v : Bool)
  | ds (d : Dataset)
deriving DecidableEq, Repr

/-- A correction call either raises, falls through both phase branches and
returns `None` (modelled `none`), or returns a phase result. -/
abbrev CorrResult := Except PyErr (Option Ret)

instance {ε α : Type} [DecidableEq ε] [DecidableEq α] :
    DecidableEq (Except ε α)
  | .ok a, .ok b =>
    if h : a = b then .isTrue (h ▸ rfl)
    else .isFalse (fun hc => h (by injection hc))
  | .error a, .error b =>
    if h : a = b then .isTrue (h ▸ rfl)
    else .isFalse (fun hc => h (by injection hc))
  | .ok _, .error _ => .isFalse (fun hc => Except.noConfusion hc)
  | .error _, .ok _ => .isFalse (fun hc => Except.noConfusion hc)

/-! ## swap_lon_convention (artmip_corrections.py lines 151-211) -/

/-- Determine phase of `swap_lon_convention`.

Note two faithfully-kept quirks of the source:
* the input dataset is classified signed exactly when
  `input_xr.lon.min() < 0 and input_xr.lon.max() > 0`;
* for the ARTMIP dataset the source tests `artmip_xr.max() > 0` (the whole
  dataset, not its `lon`), a `Dataset`, whose Python truth value
  (`Dataset.__bool__`, i.e. `bool(self.data_vars)`) is `True` exactly when
  the dataset has at least one data variable — so the ARTMIP dataset is
  classified signed exactly when its longitude minimum is negative and it
  has a data variable. -/
def swap_lon_convention_det (artmip_xr input_xr : Dataset) :
    Except PyErr Bool :=
  match npAllClose input_xr.lon.values artmip_xr.lon.values with
  | .error e => .error e
  | .ok true => .ok false
  | .ok false =>
    let input_is_0_360 :=
      !(decide (lonMin input_xr.lon.values < 0) &&
        decide (lonMax input_xr.lon.values > 0))
    let artmip_is_0_360 :=
      !(decide (lonMin artmip_xr.lon.values < 0) &&
        !artmip_xr.dataVars.isEmpty)
    if input_is_0_360 != artmip_is_0_360 then .ok true
    else .error .conventionMismatch

/-- Apply phase of `swap_lon_convention`: remap the ARTMIP longitudes to the
other convention and replace the `lon` coordinate (data is not reordered). -/
def swap_lon_convention_app (artmip_xr input_xr : Dataset) :
    Except PyErr Dataset :=
  let artmip_is_0_360 :=
    !(decide (lonMin artmip_xr.lon.values < 0) &&
      !artmip_xr.dataVars.isEmpty)
  let lon' :=
    if artmip_is_0_360 then
      artmip_xr.lon.values.map (fun v => if v > 180 then v - 360 else v)
    else
      artmip_xr.lon.values.map (fun v => if v < 0 then v + 360 else v)
  .ok { artmip_xr with lon := { artmip_xr.lon with values := lon' } }

/-- `swap_lon_convention` with the keyword-flag dispatch of the source. -/
def swap_lon_convention (artmip_xr input_xr : Dataset)
    (determine_only apply_only : Bool) : CorrResult :=
  if determine_only then
    (swap_lon_convention_det artmip_xr input_xr).map (fun b => some (.b b))
  else if apply_only then
    (swap_lon_convention_app artmip_xr input_xr).map (fun d => some (.ds d))
  else .ok none

/-! ## rotate_longitudes (artmip_corrections.py lines 213-294) -/

/-- Determine phase of `rotate_longitudes`. -/
def rotate_longitudes_det (artmip_xr input_xr : Dataset) :
    Except PyErr Bool :=
  match npAllClose input_xr.lon.values artmip_xr.lon.values with
  | .error e => .error e
  | .ok true => .ok false
  | .ok false =>
    match firstZeroIdx artmip_xr.lon.values with
    | none => .error .zeroNotInArtmip
    | some i0_artmip =>
      match firstZeroIdx input_xr.lon.values with
      | none => .error .zeroNotInInput
      | some i0_input =>
        let nroll : Int := (i0_input : Int) - (i0_artmip : Int)
        if nroll = 0 then .ok false
        else
          let rolled_lon := npRoll artmip_xr.lon.values nroll
          match npAllClose input_xr.lon.values rolled_lon with
          | .error e => .error e
          | .ok firstMatch =>
            let rolled_lon2 :=
              if firstMatch then rolled_lon else flipConvention rolled_lon
            match npAllClose input_xr.lon.values rolled_lon2 with
            | .error e => .error e
            | .ok true => .ok true
            | .ok false => .error .unresolvableLongitudeMismatch

/-- `Dataset.roll(lon=nroll, roll_coords=True)`: roll the `lon` coordinate
and every data variable along the `lon` axis. -/
def rollDatasetLon (ds : Dataset) (nroll : Int) : Dataset :=
  { ds with
    lon := { ds.lon with values := npRoll ds.lon.values nroll },
    dataVars := ds.dataVars.map (fun v =>
      { v with values := v.values.map (fun slab => slab.map (npRoll · nroll)) }) }

/-- Apply phase of `rotate_longitudes`. -/
def rotate_longitudes_app (artmip_xr input_xr : Dataset) :
    Except PyErr Dataset :=
  match firstZeroIdx artmip_xr.lon.values with
  | none => .error .zeroNotInArtmip
  | some i0_artmip =>
    match firstZeroIdx input_xr.lon.values with
    | none => .error .zeroNotInInput
    | some i0_input =>
      let nroll : Int := (i0_input : Int) - (i0_artmip : Int)
      .ok (rollDatasetLon artmip_xr nroll)

/-- `rotate_longitudes` with the keyword-flag dispatch of the source. -/
def rotate_longitudes (artmip_xr input_xr : Dataset)
    (determine_only apply_only : Bool) : CorrResult :=
  if determine_only then
    (rotate_longitudes_det artmip_xr input_xr).map (fun b => some (.b b))
  else if apply_only then
    (rotate_longitudes_app artmip_xr input_xr).map (fun d => some (.ds d))
  else .ok none

/-! ## insert_missing_times (artmip_corrections.py lines 296-326) -/

/-- Determine phase of `insert_missing_times`: required when the time
lengths differ; `input_xr.sel(time=artmip_xr.time)` succeeds exactly when
every ARTMIP time value is present among the input's, else
`TimeDomainMismatch`. -/
def insert_missing_times_det (artmip_xr input_xr : Dataset) :
    Except PyErr Bool :=
  if input_xr.time.values.length ≠ artmip_xr.time.values.length then
    if artmip_xr.time.values.all (fun t => input_xr.time.values.contains t) then
      .ok true
    else .error .timeDomainMismatch
  else .ok false

/-- The all-fill slab used by `reindex` for a timestep absent from the
source: a lat x lon array of the fill value. -/
def fillSlab (ds : Dataset) (fill : Int) : List (List Int) :=
  List.replicate ds.lat.values.length
    (List.replicate ds.lon.values.length fill)

/-- `ds.reindex(dict(time=newTime), fill_value=fill)`: raise on a duplicate
source time index; otherwise for every new time label take the slab at the
label's position in the old index, or an all-`fill` slab when the label is
new.  The `time` coordinate becomes the indexer (values and attributes). -/
def xrReindexTime (ds : Dataset) (newTime : Coord) (fill : Int) :
    Except PyErr Dataset :=
  if ds.time.values.eraseDups.length ≠ ds.time.values.length then
    .error .duplicateTimeIndex
  else
    .ok { ds with
      time := newTime,
      dataVars := ds.dataVars.map (fun v =>
        { v with values := newTime.values.map (fun t =>
            match firstIdxOf ds.time.values t with
            | some i => v.values.getD i (fillSlab ds fill)
            | none => fillSlab ds fill) }) }

/-- Apply phase of `insert_missing_times`: reindex onto the input's time
coordinate with the literal fill value `0` (not the variable's configured
fill value). -/
def insert_missing_times_app (artmip_xr input_xr : Dataset) :
    Except PyErr Dataset :=
  xrReindexTime artmip_xr input_xr.time 0

/-- `insert_missing_times` with the keyword-flag dispatch of the source. -/
def insert_missing_times (artmip_xr input_xr : Dataset)
    (determine_only apply_only : Bool) : CorrResult :=
  if determine_only then
    (insert_missing_times_det artmip_xr input_xr).map (fun b => some (.b b))
  else if apply_only then
    (insert_missing_times_app artmip_xr input_xr).map (fun d => some (.ds d))
  else .ok none

/-! ## override_time_values_and_metadata (artmip_corrections.py 328-367) -/

/-- The time attributes checked by `override_time_values_and_metadata`. -/
def checkTimeAtts : List String :=
  ["long_name", "units", "calendar", "standard_name"]

/-- Determine phase of `override_time_values_and_metadata`: the `ValueError`
from `np.allclose` on mismatched lengths is caught and ignored; a missing
attribute on either side (`KeyError`) or a differing value flags the
correction. -/
def override_time_values_and_metadata_det (artmip_xr input_xr : Dataset) :
    Except PyErr Bool :=
  let needs0 : Bool :=
    match npAllClose input_xr.time.values artmip_xr.time.values with
    | .error _ => false
    | .ok b => !b
  .ok (checkTimeAtts.foldl (fun acc att =>
    match List.lookup att input_xr.time.attrs,
          List.lookup att artmip_xr.time.attrs with
    | some x, some y => acc || (x != y)
    | _, _ => true) needs0)

/-- Apply phase: `assign_coords(time=input_xr.time)` — replaces the time
coordinate (values and attributes) with the input's; raises on a length
conflict with the existing `time` dimension. -/
def override_time_values_and_metadata_app (artmip_xr input_xr : Dataset) :
    Except PyErr Dataset :=
  if input_xr.time.values.length ≠ artmip_xr.time.values.length then
    .error .conflictingTimeSizes
  else .ok { artmip_xr with time := input_xr.time }

/-- `override_time_values_and_metadata` with the flag dispatch. -/
def override_time_values_and_metadata (artmip_xr input_xr : Dataset)
    (determine_only apply_only : Bool) : CorrResult :=
  if determine_only then
    (override_time_values_and_metadata_det artmip_xr input_xr).map
      (fun b => some (.b b))
  else if apply_only then
    (override_time_values_and_metadata_app artmip_xr input_xr).map
      (fun d => some (.ds d))
  else .ok none

/-! ## override_coordinate_metadata (artmip_corrections.py 369-404) -/

/-- The lat/lon attributes checked by `override_coordinate_metadata`. -/
def checkCoordAtts : List String := ["long_name", "units", "standard_name"]

/-- One attribute comparison: flags unless the attribute is present on both
sides with an equal value (a `KeyError` on either side flags it). -/
def coordAttMismatch (inputC artmipC : Coord) (att : String) : Bool :=
  match List.lookup att inputC.attrs, List.lookup att artmipC.attrs with
  | some x, some y => x != y
  | _, _ => true

/-- Determine phase of `override_coordinate_metadata`. -/
def override_coordinate_metadata_det (artmip_xr input_xr : Dataset) :
    Except PyErr Bool :=
  .ok (checkCoordAtts.foldl (fun acc att =>
    acc || coordAttMismatch input_xr.lat artmip_xr.lat att
        || coordAttMismatch input_xr.lon artmip_xr.lon att) false)

/-- The inner loop of the coordinate-metadata copy: set one checked
attribute after another on the accumulating coordinate, raising `KeyError`
as soon as the source lacks one. -/
def copyAttsList (src : Coord) : List String → Coord → Except PyErr Coord
  | [], c => .ok c
  | att :: rest, c =>
    match List.lookup att src.attrs with
    | some v =>
      copyAttsList src rest { c with attrs := assocSet c.attrs att v }
    | none => .error .keyError

/-- Copy the checked attributes from `src` onto `dst`
(`output_xr[coord].attrs[att] = input_xr[coord].attrs[att]`); a missing
attribute on the input side raises `KeyError`. -/
def copyCheckedAtts (src dst : Coord) : Except PyErr Coord :=
  copyAttsList src checkCoordAtts dst

/-- Apply phase of `override_coordinate_metadata`. -/
def override_coordinate_metadata_app (artmip_xr input_xr : Dataset) :
    Except PyErr Dataset :=
  match copyCheckedAtts input_xr.lat artmip_xr.lat with
  | .error e => .error e
  | .ok lat' =>
    match copyCheckedAtts input_xr.lon artmip_xr.lon with
    | .error e => .error e
    | .ok lon' => .ok { artmip_xr with lat := lat', lon := lon' }

/-- `override_coordinate_metadata` with the flag dispatch. -/
def override_coordinate_metadata (artmip_xr input_xr : Dataset)
    (determine_only apply_only : Bool) : CorrResult :=
  if determine_only then
    (override_coordinate_metadata_det artmip_xr input_xr).map
      (fun b => some (.b b))
  else if apply_only then
    (override_coordinate_metadata_app artmip_xr input_xr).map
      (fun d => some (.ds d))
  else .ok none

/-! ## Correction registry and orchestrator (ARTMIPStandardizer.py) -/

/-- An entry of `artmip_corrections.all_corrections` /
`all_correction_descriptions`: the function name, the correction function,
and its docstring (used as the provenance description). -/
structure RegisteredCorrection where
  name : String
  fn : Dataset → Dataset → Bool → Bool → CorrResult
  desc : String

/-- The registry built by the `@correction` decorators, in source order
(registration order).  Descriptions are the functions' docstrings. -/
def all_corrections_list : List RegisteredCorrection :=
  [⟨"swap_lon_convention", swap_lon_convention,
    " Swap the longitude convention from -180-180 or 0-360. "⟩,
   ⟨"rotate_longitudes", rotate_longitudes,
    " Rotate through the longitude dimension to match the input dataset. "⟩,
   ⟨"insert_missing_times", insert_missing_times,
    " Insert missing timesteps (fills with _FillValue). "⟩,
   ⟨"override_time_values_and_metadata", override_time_values_and_metadata,
    " Override the time values and metadata with that from the input. "⟩,
   ⟨"override_coordinate_metadata", override_coordinate_metadata,
    " Override the lat/lon coordinate metadata with that from the input. "⟩]

/-- `ARTMIPStandardizer.determine_corrections` (lines 188-206): run every
registered correction with `determine_only=True` over the loaded pair and
keep, in registration order, exactly those whose result `== True`.  An
exception from any determine phase propagates. -/
def determine_corrections (registry : List RegisteredCorrection)
    (artmip_input_xr original_input_xr : Dataset) :
    Except PyErr (List RegisteredCorrection) :=
  match registry with
  | [] => .ok []
  | e :: rest =>
    match e.fn artmip_input_xr original_input_xr true false with
    | .error err => .error err
    | .ok v =>
      match determine_corrections rest artmip_input_xr original_input_xr with
      | .error err => .error err
      | .ok plan => .ok (if v = some (.b true) then e :: plan else plan)

/-- The loop body of `ARTMIPStandardizer.apply_corrections` (lines 209-228).
`current` is the local `current_xr`; the `Option Dataset` argument is the
local `output_xr`, which starts unbound (`none`).  After the loop the
source executes `self.output_xr = output_xr`, which raises
`UnboundLocalError` when the loop body never ran.  The registered
corrections' apply phases always return a dataset, so the `.ok _` fallback
arm is unreachable for them. -/
def apply_corrections_loop (original_input_xr : Dataset) :
    List RegisteredCorrection → Dataset → Option Dataset →
    Except PyErr Dataset
  | [], _, none => .error .unboundLocalOutputXr
  | [], _, some output_xr => .ok output_xr
  | e :: rest, current, _ =>
    match e.fn current original_input_xr false true with
    | .error err => .error err
    | .ok (some (.ds d)) => apply_corrections_loop original_input_xr rest d (some d)
    | .ok _ => .error .notADataset

/-- `ARTMIPStandardizer.apply_corrections`: thread the candidate through the
correction plan and store the loop's `output_xr` as the run's output. -/
def apply_corrections (plan : List RegisteredCorrection)
    (artmip_input_xr original_input_xr : Dataset) : Except PyErr Dataset :=
  apply_corrections_loop original_input_xr plan artmip_input_xr none

/-- Python's `str.strip()`: drop whitespace characters from both ends of
the string. -/
def pyStrip (s : String) : String :=
  ⟨(((s.data.dropWhile Char.isWhitespace).reverse).dropWhile
      Char.isWhitespace).reverse⟩

/-- The provenance string of `write_dataset` (lines 249-252):
`"; ".join(desc.strip() for ...)` over the applied corrections'
descriptions, in plan order. -/
def provenanceString (plan : List RegisteredCorrection) : String :=
  String.intercalate "; " (plan.map (fun e => pyStrip e.desc))

/-- Attach the provenance attribute to the output dataset
(`output_xr.attrs["quality_control_operations"] = ...`). -/
def write_provenance (output_xr : Dataset)
    (plan : List RegisteredCorrection) : Dataset :=
  { output_xr with
    attrs := assocSet output_xr.attrs "quality_control_operations"
      (provenanceString plan) }

/-! ## Output writer encoding (ARTMIPStandardizer.py lines 254-276) -/

/-- The per-variable netCDF encoding dictionary built by `write_dataset`.
`fillValueEntry = some none` models the key `_FillValue: None` (explicit
suppression of the default fill value); `none` models the key being
absent. -/
structure VarEncoding where
  zlib : Option Bool := none
  complevel : Option Nat := none
  fillValueEntry : Option (Option Int) := none
  dtype : Option String := none
  units : Option String := none
  calendar : Option String := none
deriving DecidableEq, Repr

/-- Update the encoding entry of an existing variable
(`encoding_dict[var][key] = ...`); `KeyError` when the variable has no
entry. -/
def encSetOnExisting (enc : List (String × VarEncoding)) (k : String)
    (f : VarEncoding → VarEncoding) :
    Except PyErr (List (String × VarEncoding)) :=
  match enc with
  | [] => .error .keyError
  | (k', v) :: rest =>
    if k' = k then .ok ((k', f v) :: rest)
    else (encSetOnExisting rest k f).map (fun r => (k', v) :: r)

/-- The encoding computation of `write_dataset`: every output variable gets
`zlib=True, complevel=4, _FillValue=None` (the source writes the literal
`4` here; `self.compression_level` — the `compression_level` argument of
this function — is never consulted); the time units/calendar strings of the
output's time attributes are copied in; the three coordinate variables get
the original dataset's dtypes; finally `encoding_dict['ar_binary_tag']`
is reassigned to the fresh dictionary `dict(dtype="int8")`, replacing the
entry built in the loop. -/
def compute_write_encoding (outputVars : List String)
    (timeUnits timeCalendar : String) (origDtype : String → String)
    (compression_level : Nat) :
    Except PyErr (List (String × VarEncoding)) := do
  let enc0 := outputVars.map (fun v =>
    (v, ({ zlib := some true, complevel := some 4,
           fillValueEntry := some none } : VarEncoding)))
  let enc1 ← encSetOnExisting enc0 "time"
    (fun e => { e with units := some timeUnits })
  let enc2 ← encSetOnExisting enc1 "time"
    (fun e => { e with calendar := some timeCalendar })
  let enc3 ← encSetOnExisting enc2 "time"
    (fun e => { e with dtype := some (origDtype "time") })
  let enc4 ← encSetOnExisting enc3 "lat"
    (fun e => { e with dtype := some (origDtype "lat") })
  let enc5 ← encSetOnExisting enc4 "lon"
    (fun e => { e with dtype := some (origDtype "lon") })
  pure (assocSet enc5 "ar_binary_tag" { dtype := some "int8" })

/-! ## Metadata override step of the loaders
(ARTMIPStandardizer.py lines 134-137, 154-157, 180-183) -/

/-- The metadata-application loop of `load_artmip_input_files` /
`load_original_input_files`, run on the freshly opened dataset:
`for var, att_dict in self.metadata_dict.items(): for att, val in
att_dict.items(): ds[var].attrs[att] = val`.  When the override map was
left at its default `None`, the `.items()` call raises `AttributeError`.
`ds[var]` resolves to the named coordinate or data variable; an unknown
name raises `KeyError`. -/
def applyMetadataOverrides
    (metadata_dict : Option (List (String × List (String × String))))
    (ds : Dataset) : Except PyErr Dataset :=
  match metadata_dict with
  | none => .error .attributeErrorNoneItems
  | some m =>
    m.foldlM (fun d (entry : String × List (String × String)) =>
      entry.2.foldlM (fun d' (av : String × String) =>
        setVarAttr d' entry.1 av.1 av.2) d) ds
where
  /-- `ds[var].attrs[att] = val` for `var` one of the coordinates or a data
  variable. -/
  setVarAttr (d : Dataset) (var att val : String) : Except PyErr Dataset :=
    if var = "time" then
      .ok { d with time := { d.time with attrs := assocSet d.time.attrs att val } }
    else if var = "lat" then
      .ok { d with lat := { d.lat with attrs := assocSet d.lat.attrs att val } }
    else if var = "lon" then
      .ok { d with lon := { d.lon with attrs := assocSet d.lon.attrs att val } }
    else if d.dataVars.any (fun v => v.name = var) then
      .ok { d with dataVars := d.dataVars.map (fun v =>
        if v.name = var then { v with attrs := assocSet v.attrs att val }
        else v) }
    else .error .keyError

/-! ## Helper lemmas -/

theorem zip_self_all_beq (l : List Int) :
    ((l.zip l).all fun p => p.1 == p.2) = true := by
  induction l with
  | nil => rfl
  | cons x xs ih =>
    simp only [List.zip_cons_cons, List.all_cons, ih, Bool.and_true,
      beq_self_eq_true]

theorem npAllClose_refl (l : List Int) : npAllClose l l = .ok true := by
  simp [npAllClose, zip_self_all_beq]

theorem npAllClose_eq_ok_of_len {a b : List Int} (h : a.length = b.length) :
    npAllClose a b = .ok ((a.zip b).all fun p => p.1 == p.2) := by
  simp [npAllClose, h]

theorem firstIdxOf_eq_none_iff (l : List Int) (t : Int) :
    firstIdxOf l t = none ↔ t ∉ l := by
  induction l with
  | nil => simp [firstIdxOf]
  | cons x xs ih =>
    by_cases h : x = t
    · simp [firstIdxOf, h]
    · simp [firstIdxOf, h, ih, Ne.symm h]

theorem firstIdxOf_bound {l : List Int} {t : Int} {i : Nat}
    (h : firstIdxOf l t = some i) : i < l.length := by
  induction l generalizing i with
  | nil => simp [firstIdxOf] at h
  | cons x xs ih =>
    by_cases hx : x = t
    · simp [firstIdxOf, hx] at h
      simp [← h]
    · simp [firstIdxOf, hx] at h
      obtain ⟨j, hj, rfl⟩ := h
      have := ih hj
      simp only [List.length_cons]
      omega

theorem firstIdxOf_getD {l : List Int} {t : Int} {i : Nat}
    (h : firstIdxOf l t = some i) : l.getD i 0 = t := by
  induction l generalizing i with
  | nil => simp [firstIdxOf] at h
  | cons x xs ih =>
    by_cases hx : x = t
    · simp [firstIdxOf, hx] at h
      simp [← h, hx]
    · simp [firstIdxOf, hx] at h
      obtain ⟨j, hj, rfl⟩ := h
      simpa using ih hj

theorem firstIdxOf_min {l : List Int} {t : Int} {i : Nat}
    (h : firstIdxOf l t = some i) : ∀ j, j < i → l.getD j 0 ≠ t := by
  induction l generalizing i with
  | nil => simp [firstIdxOf] at h
  | cons x xs ih =>
    by_cases hx : x = t
    · simp [firstIdxOf, hx] at h
      intro j hj
      exact absurd hj (by omega)
    · simp [firstIdxOf, hx] at h
      obtain ⟨j', hj', rfl⟩ := h
      intro j hj
      cases j with
      | zero => simpa using hx
      | succ j => simpa using ih hj' j (by omega)

theorem firstIdxOf_eq_some_of {l : List Int} {t : Int} {i : Nat}
    (hb : i < l.length) (hg : l.getD i 0 = t)
    (hm : ∀ j, j < i → l.getD j 0 ≠ t) : firstIdxOf l t = some i := by
  induction l generalizing i with
  | nil => simp at hb
  | cons x xs ih =>
    cases i with
    | zero => simp_all [firstIdxOf]
    | succ i =>
      have hx : x ≠ t := by simpa using hm 0 (by omega)
      have : firstIdxOf xs t = some i := by
        refine ih (by simpa using hb) (by simpa using hg) ?_
        intro j hj
        simpa using hm (j + 1) (by omega)
      simp [firstIdxOf, hx, this]

theorem npRoll_length (l : List Int) (k : Int) :
    (npRoll l k).length = l.length := by
  unfold npRoll
  rw [List.length_map, List.length_range]

theorem npRoll_getD {l : List Int} {j : Nat} (k : Int) (hj : j < l.length) :
    (npRoll l k).getD j 0 =
      l.getD (((j : Int) - k).emod (l.length : Int)).toNat 0 := by
  have hlen : j < ((List.range l.length).map
      (fun (i : Nat) => l.getD ((((i : Int)) - k).emod (l.length : Int)).toNat 0)).length := by
    rw [List.length_map, List.length_range]
    exact hj
  unfold npRoll
  rw [List.getD_eq_getElem _ _ hlen, List.getElem_map, List.getElem_range]

theorem emod_toNat_lt {a : Int} {n : Nat} (hn : 0 < n) :
    (a.emod (n : Int)).toNat < n := by
  have h1 : 0 ≤ a.emod (n : Int) :=
    Int.emod_nonneg a (by exact_mod_cast hn.ne')
  have h2 : a.emod (n : Int) < (n : Int) :=
    Int.emod_lt_of_pos a (by exact_mod_cast hn)
  omega

/-- Rolling a longitude array with a unique zero by the offset between the
reference's zero index and its own moves the zero (and its first
occurrence) to the reference's zero index. -/
theorem firstZeroIdx_npRoll {l : List Int} {ic ii : Nat}
    (hic : firstZeroIdx l = some ic) (hii : ii < l.length)
    (uniq : ∀ j1, j1 < l.length → ∀ j2, j2 < l.length →
      l.getD j1 0 = 0 → l.getD j2 0 = 0 → j1 = j2) :
    firstZeroIdx (npRoll l ((ii : Int) - (ic : Int))) = some ii := by
  have hicb : ic < l.length := firstIdxOf_bound hic
  have hn : 0 < l.length := by omega
  have hic0 : l.getD ic 0 = 0 := firstIdxOf_getD hic
  set k : Int := (ii : Int) - (ic : Int) with hk
  refine firstIdxOf_eq_some_of (by simpa [npRoll_length] using hii) ?_ ?_
  · rw [npRoll_getD k (by simpa using hii)]
    have : ((ii : Int) - k).emod (l.length : Int) = (ic : Int) := by
      rw [hk]
      have h1 : (ii : Int) - ((ii : Int) - (ic : Int)) = (ic : Int) := by ring
      rw [h1]
      exact Int.emod_eq_of_lt (by omega) (by exact_mod_cast hicb)
    rw [this]
    simpa using hic0
  · intro j hj
    have hjl : j < l.length := by omega
    rw [npRoll_getD k hjl]
    intro hzero
    set m : Nat := (((j : Int) - k).emod (l.length : Int)).toNat with hm
    have hml : m < l.length := emod_toNat_lt hn
    have hmic : m = ic := uniq m hml ic hicb hzero hic0
    have hme : ((j : Int) - k).emod (l.length : Int) = (ic : Int) := by
      have hnn : 0 ≤ ((j : Int) - k).emod (l.length : Int) :=
        Int.emod_nonneg _ (by exact_mod_cast hn.ne')
      omega
    have hie : ((ii : Int) - k).emod (l.length : Int) = (ic : Int) := by
      rw [hk]
      have h1 : (ii : Int) - ((ii : Int) - (ic : Int)) = (ic : Int) := by ring
      rw [h1]
      exact Int.emod_eq_of_lt (by omega) (by exact_mod_cast hicb)
    have hcong : ((j : Int) - k).emod (l.length : Int) =
        ((ii : Int) - k).emod (l.length : Int) := by rw [hme, hie]
    have hdvd : ((l.length : Int)) ∣ ((j : Int) - k - ((ii : Int) - k)) :=
      Int.dvd_of_emod_eq_zero
        (Int.emod_eq_emod_iff_emod_sub_eq_zero.mp hcong)
    have hsub : (j : Int) - k - ((ii : Int) - k) = (j : Int) - (ii : Int) := by
      ring
    rw [hsub] at hdvd
    obtain ⟨c, hc⟩ := hdvd
    have hb1 : (j : Int) - (ii : Int) < 0 := by
      have : (j : Int) < (ii : Int) := by exact_mod_cast hj
      omega
    have hb2 : -(l.length : Int) < (j : Int) - (ii : Int) := by
      have : (ii : Int) < (l.length : Int) := by exact_mod_cast hii
      omega
    rcases lt_trichotomy c 0 with hc0 | hc0 | hc0
    · have : c ≤ -1 := by omega
      have : (l.length : Int) * c ≤ (l.length : Int) * (-1) := by
        exact mul_le_mul_of_nonneg_left this (by positivity)
      omega
    · subst hc0
      omega
    · have : 1 ≤ c := by omega
      have : (l.length : Int) * 1 ≤ (l.length : Int) * c := by
        exact mul_le_mul_of_nonneg_left this (by positivity)
      omega

theorem lookup_assocSet_self {β : Type} (l : List (String × β)) (k : String)
    (v : β) : List.lookup k (assocSet l k v) = some v := by
  induction l with
  | nil => simp [assocSet, List.lookup]
  | cons p rest ih =>
    obtain ⟨k', v'⟩ := p
    by_cases h : k' = k
    · simp [assocSet, h, List.lookup]
    · have hb : (k == k') = false := beq_eq_false_iff_ne.mpr (Ne.symm h)
      simp [assocSet, h, List.lookup, hb, ih]

theorem lookup_assocSet_ne {β : Type} (l : List (String × β))
    (k k' : String) (v : β) (h : k' ≠ k) :
    List.lookup k' (assocSet l k v) = List.lookup k' l := by
  have hb : (k' == k) = false := beq_eq_false_iff_ne.mpr h
  induction l with
  | nil => simp [assocSet, List.lookup, hb]
  | cons p rest ih =>
    obtain ⟨k'', v''⟩ := p
    by_cases hk : k'' = k
    · subst hk
      simp [assocSet, List.lookup, hb]
    · simp only [assocSet, if_neg hk]
      by_cases h2 : k' = k''
      · have hb2 : (k' == k'') = true := beq_iff_eq.mpr h2
        simp [List.lookup, hb2]
      · have hb2 : (k' == k'') = false := beq_eq_false_iff_ne.mpr h2
        simp [List.lookup, hb2, ih]

/-! ## Concrete datasets used as evaluation inputs -/

/-- Extract the dataset of a successful result (all uses are on results
that are `.ok` by computation). -/
def getOk (e : Except PyErr Dataset) (d : Dataset) : Dataset :=
  match e with
  | .ok x => x
  | .error _ => d

/-- Whether a correction call returned an apply-phase result (a dataset). -/
def isApplyResult : CorrResult → Bool
  | .ok (some (.ds _)) => true
  | _ => false

def timeAttsFull : List (String × String) :=
  [("long_name", "time"), ("units", "days since 0001-01-01 00:00:00"),
   ("calendar", "365_day"), ("standard_name", "time")]

def latAttsFull : List (String × String) :=
  [("long_name", "latitude"), ("units", "degrees_north"),
   ("standard_name", "latitude")]

def lonAttsFull : List (String × String) :=
  [("long_name", "longitude"), ("units", "degrees_east"),
   ("standard_name", "longitude")]

/-- A reference dataset already consistent with `candConsistent`. -/
def refConsistent : Dataset :=
  { time := ⟨[0, 1, 2], timeAttsFull⟩,
    lat := ⟨[0], latAttsFull⟩,
    lon := ⟨[0, 90, 180, 270], lonAttsFull⟩,
    dataVars := [⟨"IVT", [[[5, 6, 7, 8]], [[5, 6, 7, 8]], [[5, 6, 7, 8]]], none, []⟩],
    attrs := [] }

/-- A candidate dataset already consistent with `refConsistent`: every
registered correction's determine phase returns false on this pair. -/
def candConsistent : Dataset :=
  { time := ⟨[0, 1, 2], timeAttsFull⟩,
    lat := ⟨[0], latAttsFull⟩,
    lon := ⟨[0, 90, 180, 270], lonAttsFull⟩,
    dataVars := [⟨"ar_binary_tag",
      [[[0, 1, 0, 1]], [[1, 0, 0, 1]], [[0, 0, 1, 0]]], none, []⟩],
    attrs := [] }

/-- Candidate with too few timesteps whose times are not a subset of the
reference's (time value 5 is absent from `c6wI`). -/
def c6wA : Dataset :=
  { time := ⟨[0, 5], timeAttsFull⟩, lat := ⟨[0], latAttsFull⟩,
    lon := ⟨[0, 180], lonAttsFull⟩,
    dataVars := [⟨"ar_binary_tag", [[[0, 1]], [[1, 0]]], none, []⟩],
    attrs := [] }

def c6wI : Dataset :=
  { time := ⟨[0, 1, 2], timeAttsFull⟩, lat := ⟨[0], latAttsFull⟩,
    lon := ⟨[0, 180], lonAttsFull⟩,
    dataVars := [⟨"IVT", [[[1, 2]], [[3, 4]], [[5, 6]]], none, []⟩],
    attrs := [] }

/-! ## Claim theorems -/

/-- C1.  The claim says an empty correction plan (every determine phase
false) passes the candidate through unchanged as the run's output.  The
code instead crashes: `apply_corrections` ends with
`self.output_xr = output_xr`, and the local `output_xr` is never assigned
when the loop body never runs, so Python raises `UnboundLocalError`.  On
the concrete consistent pair every registered determine phase returns
false (the plan is empty) and the apply step errors instead of returning
the candidate. -/
theorem C1_empty_plan_crashes :
    (∀ a i : Dataset,
      apply_corrections [] a i = .error .unboundLocalOutputXr) ∧
    determine_corrections all_corrections_list candConsistent refConsistent
      = .ok [] ∧
    apply_corrections [] candConsistent refConsistent ≠ .ok candConsistent :=
  ⟨fun _ _ => rfl, rfl, fun h => Except.noConfusion h⟩

/-- C6 (confirmed).  The missing-timestep determine phase returns true
exactly when the time lengths differ and the candidate's time values are
all present among the reference's; when the lengths differ and they are
not, it raises `TimeDomainMismatch` instead of returning a boolean. -/
theorem C6_insert_determine (a i : Dataset) :
    (insert_missing_times a i true false = .ok (some (.b true)) ↔
      (i.time.values.length ≠ a.time.values.length ∧
       a.time.values.all (fun t => i.time.values.contains t) = true)) ∧
    (i.time.values.length ≠ a.time.values.length →
      ¬ a.time.values.all (fun t => i.time.values.contains t) = true →
      insert_missing_times a i true false = .error .timeDomainMismatch) := by
  unfold insert_missing_times insert_missing_times_det
  rw [if_pos rfl]
  by_cases hl : i.time.values.length = a.time.values.length
  · rw [if_neg (fun hne => hne hl)]
    constructor
    · constructor
      · intro h
        simp only [Except.map] at h
        simp at h
      · rintro ⟨hne, -⟩
        exact absurd hl hne
    · intro hne
      exact absurd hl hne
  · rw [if_pos hl]
    by_cases hs : a.time.values.all (fun t => i.time.values.contains t) = true
    · rw [if_pos hs]
      constructor
      · constructor
        · intro _
          exact ⟨hl, hs⟩
        · intro _
          rfl
      · intro _ hns
        exact absurd hs hns
    · rw [if_neg hs]
      constructor
      · constructor
        · intro h
          simp only [Except.map] at h
          simp at h
        · rintro ⟨-, hsub⟩
          exact absurd hsub hs
      · intro _ _
        rfl

/-- Witness for C6: a concrete pair with differing time lengths whose
candidate times are not a subset of the reference's raises
`TimeDomainMismatch`. -/
theorem C6_insert_determine_witness :
    insert_missing_times c6wA c6wI true false = .error .timeDomainMismatch :=
  (C6_insert_determine c6wA c6wI).2 (by decide) (by decide)

/-- The output variables of the run used to evaluate the writer encoding. -/
def c7vars : List String := ["time", "lat", "lon", "ar_binary_tag"]

def c7dtype : String → String := fun _ => "float64"

def c7units : String := "days since 0001-01-01 00:00:00"

def c7cal : String := "365_day"

/-- The encoding dictionary the writer actually computes for `c7vars` with
configured compression level 5. -/
def c7result : List (String × VarEncoding) :=
  [("time", { zlib := some true, complevel := some 4,
              fillValueEntry := some none, dtype := some "float64",
              units := some c7units, calendar := some c7cal }),
   ("lat", { zlib := some true, complevel := some 4,
             fillValueEntry := some none, dtype := some "float64" }),
   ("lon", { zlib := some true, complevel := some 4,
             fillValueEntry := some none, dtype := some "float64" }),
   ("ar_binary_tag", { dtype := some "int8" })]

/-- C7.  The claim says every variable's encoding enables compression at
the run's configured level (default 4) and suppresses the default fill
value, with `ar_binary_tag` additionally pinned to a single-byte integer
dtype.  The code contradicts it twice: the loop writes the literal
`complevel: 4` (here the configured level is 5 and `lat` still gets 4),
and `encoding_dict['ar_binary_tag'] = dict(dtype="int8")` replaces that
variable's whole encoding, leaving it with no compression and no
fill-value suppression at all. -/
theorem C7_encoding_bug :
    compute_write_encoding c7vars c7units c7cal c7dtype 5 = .ok c7result ∧
    (List.lookup "lat" c7result).map VarEncoding.complevel = some (some 4) ∧
    (List.lookup "lat" c7result).map VarEncoding.complevel ≠ some (some 5) ∧
    (List.lookup "ar_binary_tag" c7result).map VarEncoding.zlib = some none ∧
    (List.lookup "ar_binary_tag" c7result).map VarEncoding.complevel
      = some none ∧
    (List.lookup "ar_binary_tag" c7result).map VarEncoding.fillValueEntry
      = some none ∧
    (List.lookup "ar_binary_tag" c7result).map VarEncoding.dtype
      = some (some "int8") :=
  ⟨rfl, rfl, by decide, rfl, rfl, rfl, rfl⟩

/-- C9.  The claim says a run configured without a metadata-override map
(left at its default `None`) loads the dataset and leaves every attribute
unchanged.  The code instead raises `AttributeError` ('NoneType' object
has no attribute 'items') inside the loaders, for every dataset; an empty
override map is what would have left the dataset unchanged. -/
theorem C9_none_metadata_crashes :
    (∀ ds : Dataset,
      applyMetadataOverrides none ds = .error .attributeErrorNoneItems) ∧
    (∀ ds : Dataset, applyMetadataOverrides (some []) ds = .ok ds) :=
  ⟨fun _ => rfl, fun _ => rfl⟩

theorem isApplyResult_map_det (r : Except PyErr Bool) :
    isApplyResult (r.map (fun b => some (.b b))) = false := by
  cases r <;> rfl

/-- C10 (confirmed).  Every registered correction called with both flags
false falls through both branches and returns `None`; called with
`determine_only=True` it returns the determine phase's result regardless
of `apply_only`, and that result is never an apply-phase dataset. -/
theorem C10_flag_dispatch :
    ∀ e ∈ all_corrections_list, ∀ a i : Dataset,
      e.fn a i false false = .ok none ∧
      (∀ ao : Bool, e.fn a i true ao = e.fn a i true false) ∧
      (∀ ao : Bool, isApplyResult (e.fn a i true ao) = false) := by
  intro e he a i
  fin_cases he
  · exact ⟨rfl, fun _ => rfl, fun _ =>
      isApplyResult_map_det (swap_lon_convention_det a i)⟩
  · exact ⟨rfl, fun _ => rfl, fun _ =>
      isApplyResult_map_det (rotate_longitudes_det a i)⟩
  · exact ⟨rfl, fun _ => rfl, fun _ =>
      isApplyResult_map_det (insert_missing_times_det a i)⟩
  · exact ⟨rfl, fun _ => rfl, fun _ =>
      isApplyResult_map_det (override_time_values_and_metadata_det a i)⟩
  · exact ⟨rfl, fun _ => rfl, fun _ =>
      isApplyResult_map_det (override_coordinate_metadata_det a i)⟩

/-- Witness for C10 at the first registered correction and a concrete
pair, with `apply_only=True` during the determine-only call. -/
theorem C10_flag_dispatch_witness :
    swap_lon_convention candConsistent refConsistent false false
      = .ok none ∧
    swap_lon_convention candConsistent refConsistent true true
      = swap_lon_convention candConsistent refConsistent true false ∧
    isApplyResult (swap_lon_convention candConsistent refConsistent true true)
      = false := by
  have h := C10_flag_dispatch
    ⟨"swap_lon_convention", swap_lon_convention,
     " Swap the longitude convention from -180-180 or 0-360. "⟩
    (by unfold all_corrections_list; exact List.Mem.head _)
    candConsistent refConsistent
  exact ⟨h.1, h.2.1 true, h.2.2 true⟩

/-- Reference dataset whose longitudes are all negative: its minimum is
below zero, yet `input_xr.lon.max() > 0` fails, so the code classifies it
as 0-360. -/
def c3ceI : Dataset :=
  { time := ⟨[0], timeAttsFull⟩, lat := ⟨[0], latAttsFull⟩,
    lon := ⟨[-30, -20, -10], lonAttsFull⟩,
    dataVars := [⟨"IVT", [[[1, 2, 3]]], none, []⟩], attrs := [] }

/-- Candidate with nonnegative longitudes (0-360 by either reading). -/
def c3ceA : Dataset :=
  { time := ⟨[0], timeAttsFull⟩, lat := ⟨[0], latAttsFull⟩,
    lon := ⟨[10, 20, 30], lonAttsFull⟩,
    dataVars := [⟨"ar_binary_tag", [[[0, 1, 0]]], none, []⟩], attrs := [] }

/-- C3 counterexample.  The claim classifies each dataset as 0-360 exactly
when its longitude minimum is >= 0, which would make `c3ceI` signed and
`c3ceA` 0-360 — different conventions, so determine should return true.
The code classifies the reference as signed only when its minimum is
negative AND its maximum positive; with all-negative reference longitudes
both datasets are classified 0-360 and the code raises `ConventionMismatch`
instead of returning true. -/
theorem C3_counterexample :
    lonMin c3ceI.lon.values < 0 ∧
    0 ≤ lonMin c3ceA.lon.values ∧
    npAllClose c3ceI.lon.values c3ceA.lon.values = .ok false ∧
    swap_lon_convention c3ceA c3ceI true false = .error .conventionMismatch :=
  ⟨by decide, by decide, rfl, rfl⟩

/-- C3 amended.  When the longitudes differ, the determine phase classifies
the reference as 0-360 exactly when not (its longitude minimum < 0 and its
longitude maximum > 0), and the candidate as 0-360 exactly when not (its
longitude minimum < 0 and it has at least one data variable); it returns
true when the classifications differ and raises `ConventionMismatch` when
they are equal. -/
theorem C3_convention_classification (a i : Dataset)
    (h : npAllClose i.lon.values a.lon.values = .ok false)
    (input360 artmip360 : Bool)
    (hi : input360 = !(decide (lonMin i.lon.values < 0) &&
      decide (lonMax i.lon.values > 0)))
    (ha : artmip360 = !(decide (lonMin a.lon.values < 0) &&
      !a.dataVars.isEmpty)) :
    (input360 ≠ artmip360 →
      swap_lon_convention a i true false = .ok (some (.b true))) ∧
    (input360 = artmip360 →
      swap_lon_convention a i true false = .error .conventionMismatch) := by
  unfold swap_lon_convention swap_lon_convention_det
  rw [if_pos rfl, h]
  subst hi ha
  constructor
  · intro hne
    rw [if_pos (by simpa [bne_iff_ne] using hne)]
    rfl
  · intro heq
    rw [if_neg (by simpa [bne_iff_ne] using heq)]
    rfl

/-- Reference dataset that the code classifies as signed (minimum < 0 and
maximum > 0). -/
def c3wI : Dataset :=
  { time := ⟨[0], timeAttsFull⟩, lat := ⟨[0], latAttsFull⟩,
    lon := ⟨[-30, -20, 10], lonAttsFull⟩,
    dataVars := [⟨"IVT", [[[1, 2, 3]]], none, []⟩], attrs := [] }

/-- Witness for C3's amended classification: a reference the code reads as
signed against a 0-360 candidate makes determine return true. -/
theorem C3_convention_classification_witness :
    swap_lon_convention c3ceA c3wI true false = .ok (some (.b true)) :=
  (C3_convention_classification c3ceA c3wI rfl false true rfl rfl).1
    (by decide)

/-- Candidate for the C4 counterexample: longitude 0 sits at index 0 on
both sides, so the computed rotation offset is zero. -/
def c4ceA : Dataset :=
  { time := ⟨[0], timeAttsFull⟩, lat := ⟨[0], latAttsFull⟩,
    lon := ⟨[0, 5, 10], lonAttsFull⟩,
    dataVars := [⟨"ar_binary_tag", [[[0, 1, 0]]], none, []⟩], attrs := [] }

def c4ceI : Dataset :=
  { time := ⟨[0], timeAttsFull⟩, lat := ⟨[0], latAttsFull⟩,
    lon := ⟨[0, 5, 20], lonAttsFull⟩,
    dataVars := [⟨"IVT", [[[1, 2, 3]]], none, []⟩], attrs := [] }

/-- C4 counterexample.  The claim's premises hold at this pair: longitudes
differ, 0 occurs in both arrays, rolling the candidate by the offset
(0 - 0 = 0) does not reproduce the reference, and a convention flip of the
rolled values does not either — so per the claim determine should raise
`UnresolvableLongitudeMismatch`.  The code instead returns false silently
as soon as it sees the zero offset, performing neither comparison. -/
theorem C4_counterexample :
    npAllClose c4ceI.lon.values c4ceA.lon.values = .ok false ∧
    firstZeroIdx c4ceA.lon.values = some 0 ∧
    firstZeroIdx c4ceI.lon.values = some 0 ∧
    npAllClose c4ceI.lon.values (npRoll c4ceA.lon.values 0) = .ok false ∧
    npAllClose c4ceI.lon.values (flipConvention (npRoll c4ceA.lon.values 0))
      = .ok false ∧
    rotate_longitudes c4ceA c4ceI true false = .ok (some (.b false)) :=
  ⟨rfl, rfl, rfl, rfl, rfl, rfl⟩

/-- C4 amended.  For a pair whose longitudes differ, with 0 present in both
arrays at positions giving a NONZERO rotation offset, when neither the
rolled candidate longitudes nor their convention flip reproduces the
reference, determine raises `UnresolvableLongitudeMismatch`.  (When the
offset is zero the code instead returns false without attempting the
comparisons.) -/
theorem C4_unresolvable_rotation (a i : Dataset) (ic ii : Nat)
    (h0 : npAllClose i.lon.values a.lon.values = .ok false)
    (ha : firstZeroIdx a.lon.values = some ic)
    (hi : firstZeroIdx i.lon.values = some ii)
    (hnz : (ii : Int) - (ic : Int) ≠ 0)
    (hroll : npAllClose i.lon.values
      (npRoll a.lon.values ((ii : Int) - (ic : Int))) = .ok false)
    (hflip : npAllClose i.lon.values
      (flipConvention (npRoll a.lon.values ((ii : Int) - (ic : Int))))
      = .ok false) :
    rotate_longitudes a i true false
      = .error .unresolvableLongitudeMismatch := by
  unfold rotate_longitudes rotate_longitudes_det
  rw [if_pos rfl, h0, ha, hi]
  simp only [hroll, hflip, if_neg hnz, Bool.false_eq_true, if_false,
    Except.map]

/-- Candidate/reference pair for the C4 witness: offset 1, rolling gives
[50, 0] against reference [77, 0], and the flip leaves [50, 0]. -/
def c4wA : Dataset :=
  { time := ⟨[0], timeAttsFull⟩, lat := ⟨[0], latAttsFull⟩,
    lon := ⟨[0, 50], lonAttsFull⟩,
    dataVars := [⟨"ar_binary_tag", [[[0, 1]]], none, []⟩], attrs := [] }

def c4wI : Dataset :=
  { time := ⟨[0], timeAttsFull⟩, lat := ⟨[0], latAttsFull⟩,
    lon := ⟨[77, 0], lonAttsFull⟩,
    dataVars := [⟨"IVT", [[[1, 2]]], none, []⟩], attrs := [] }

/-- Witness for C4's amended statement at a concrete pair with a nonzero
offset. -/
theorem C4_unresolvable_rotation_witness :
    rotate_longitudes c4wA c4wI true false
      = .error .unresolvableLongitudeMismatch :=
  C4_unresolvable_rotation c4wA c4wI 0 1 rfl rfl rfl (by decide) rfl rfl

/-- The time x lat x lon slab of data variable `k` at timestep `j`. -/
def slabOf (ds : Dataset) (k j : Nat) : List (List Int) :=
  (ds.dataVars.getD k default).values.getD j []

/-- An in-range `getD` over a mapped list ignores both defaults. -/
theorem getD_map_lt {α β : Type} (f : α → β) (l : List α) (n : Nat) (d : β)
    (d' : α) (h : n < l.length) : (l.map f).getD n d = f (l.getD n d') := by
  have h1 : n < (l.map f).length := by simpa using h
  rw [List.getD_eq_getElem (l.map f) d h1, List.getElem_map,
    List.getD_eq_getElem l d' h]

/-- The slab a time reindex produces for variable `k` at new timestep `j`. -/
theorem reindexed_slab (a : Dataset) (newTime : Coord) (fill : Int)
    (k j : Nat) (hk : k < a.dataVars.length)
    (hj : j < newTime.values.length) :
    ((a.dataVars.map (fun (v : DataVar) =>
        { v with values := newTime.values.map (fun t =>
            match firstIdxOf a.time.values t with
            | some i => v.values.getD i (fillSlab a fill)
            | none => fillSlab a fill) })).getD k default).values.getD j []
      = (match firstIdxOf a.time.values (newTime.values.getD j 0) with
         | some idx =>
            (a.dataVars.getD k default).values.getD idx (fillSlab a fill)
         | none => fillSlab a fill) := by
  rw [getD_map_lt _ a.dataVars k default default hk]
  show (newTime.values.map (fun t =>
      match firstIdxOf a.time.values t with
      | some i => (a.dataVars.getD k default).values.getD i (fillSlab a fill)
      | none => fillSlab a fill)).getD j [] = _
  rw [getD_map_lt _ newTime.values j [] 0 hj]

/-- What a successful time reindex produces, slab by slab. -/
theorem xrReindexTime_ok {a : Dataset} {newTime : Coord} {fill : Int}
    {out : Dataset} (h : xrReindexTime a newTime fill = .ok out) :
    out.time = newTime ∧ out.lat = a.lat ∧ out.lon = a.lon ∧
    out.dataVars.length = a.dataVars.length ∧
    ∀ k, k < a.dataVars.length → ∀ j, j < newTime.values.length →
      slabOf out k j =
        (match firstIdxOf a.time.values (newTime.values.getD j 0) with
         | some idx =>
            (a.dataVars.getD k default).values.getD idx (fillSlab a fill)
         | none => fillSlab a fill) := by
  unfold xrReindexTime at h
  by_cases hg : a.time.values.eraseDups.length = a.time.values.length
  · rw [if_neg (fun hne => hne hg)] at h
    injection h with h
    subst h
    exact ⟨rfl, rfl, rfl, by simp, fun k hk j hj =>
      reindexed_slab a newTime fill k j hk hj⟩
  · rw [if_pos hg] at h
    exact absurd h (by simp)

/-- C5 (confirmed).  For a candidate whose (duplicate-free) time values are
a proper subset of the reference's, the missing-timestep apply phase
returns a dataset whose time coordinate is the reference's full time
coordinate; at every timestep absent from the candidate each data variable
is an all-zero slab — the literal fill value 0, irrespective of the
variable's configured `fillValue` — and at every timestep of the candidate
the variable's slab is unchanged. -/
theorem C5_insert_apply (a i out : Dataset)
    (hnodup : a.time.values.eraseDups.length = a.time.values.length)
    (hsub : ∀ t ∈ a.time.values, t ∈ i.time.values)
    (hproper : a.time.values.length ≠ i.time.values.length)
    (hvlen : ∀ v ∈ a.dataVars, v.values.length = a.time.values.length)
    (happ : insert_missing_times a i false true = .ok (some (.ds out))) :
    out.time = i.time ∧
    out.dataVars.length = a.dataVars.length ∧
    (∀ k, k < a.dataVars.length → ∀ j, j < i.time.values.length →
      (i.time.values.getD j 0 ∉ a.time.values →
        slabOf out k j =
          List.replicate a.lat.values.length
            (List.replicate a.lon.values.length 0)) ∧
      (∀ idx, firstIdxOf a.time.values (i.time.values.getD j 0) = some idx →
        slabOf out k j = slabOf a k idx)) := by
  unfold insert_missing_times insert_missing_times_app at happ
  rw [if_neg Bool.false_ne_true, if_pos rfl] at happ
  rcases hx : xrReindexTime a i.time 0 with e | d
  · rw [hx] at happ
    exact absurd happ (by simp [Except.map])
  · rw [hx] at happ
    simp only [Except.map, Except.ok.injEq, Option.some.injEq,
      Ret.ds.injEq] at happ
    subst happ
    obtain ⟨ht, hlat, hlon, hlen, hslab⟩ := xrReindexTime_ok hx
    refine ⟨ht, hlen, ?_⟩
    intro k hk j hj
    constructor
    · intro hmem
      rw [hslab k hk j hj, (firstIdxOf_eq_none_iff _ _).mpr hmem]
      rfl
    · intro idx hidx
      rw [hslab k hk j hj, hidx]
      show (a.dataVars.getD k default).values.getD idx (fillSlab a 0)
        = slabOf a k idx
      have hidxb : idx < a.time.values.length := firstIdxOf_bound hidx
      have hvk : (a.dataVars.getD k default).values.length
          = a.time.values.length := by
        rw [List.getD_eq_getElem _ _ hk]
        exact hvlen _ (List.getElem_mem hk)
      unfold slabOf
      rw [List.getD_eq_getElem _ (fillSlab a 0) (by omega),
        List.getD_eq_getElem _ ([] : List (List Int)) (by omega)]

/-- Reference with five timesteps for the C5 witness. -/
def c5wI : Dataset :=
  { time := ⟨[0, 1, 2, 3, 4], timeAttsFull⟩, lat := ⟨[0], latAttsFull⟩,
    lon := ⟨[0, 180], lonAttsFull⟩,
    dataVars := [⟨"IVT",
      [[[1, 1]], [[2, 2]], [[3, 3]], [[4, 4]], [[5, 5]]], none, []⟩],
    attrs := [] }

/-- Candidate with three of the reference's five timesteps and a nonzero
configured fill value (255), to show the inserted slabs are 0 anyway. -/
def c5wA : Dataset :=
  { time := ⟨[0, 2, 4], timeAttsFull⟩, lat := ⟨[0], latAttsFull⟩,
    lon := ⟨[0, 180], lonAttsFull⟩,
    dataVars := [⟨"ar_binary_tag", [[[1, 2]], [[3, 4]], [[5, 6]]],
      some 255, []⟩],
    attrs := [] }

/-- The dataset the missing-timestep apply phase produces on the pair. -/
def c5wOut : Dataset := getOk (insert_missing_times_app c5wA c5wI) c5wA

/-- Witness for C5 on the 3-of-5 pair: the new timestep 1 is all zero, the
original timestep 2 keeps its slab, and the output time coordinate is the
reference's. -/
theorem C5_insert_apply_witness :
    c5wOut.time = c5wI.time ∧
    slabOf c5wOut 0 1 = List.replicate 1 (List.replicate 2 0) ∧
    slabOf c5wOut 0 2 = slabOf c5wA 0 1 := by
  have h := C5_insert_apply c5wA c5wI c5wOut (by decide)
    (by decide) (by decide) (by decide) rfl
  refine ⟨h.1, ?_, ?_⟩
  · have := (h.2.2 0 (by decide) 1 (by decide)).1 (by decide)
    simpa using this
  · exact (h.2.2 0 (by decide) 2 (by decide)).2 1 rfl

/-- Whether a registered correction's determine phase returns true on the
pair (the membership test of the correction plan). -/
def determineTrue (a i : Dataset) (e : RegisteredCorrection) : Bool :=
  e.fn a i true false == .ok (some (.b true))

/-- The correction plan built by `determine_corrections` is exactly the
registry filtered to the corrections whose determine phase returned true,
in registration order. -/
theorem determine_corrections_filter (registry : List RegisteredCorrection)
    (a i : Dataset) (plan : List RegisteredCorrection)
    (h : determine_corrections registry a i = .ok plan) :
    plan = registry.filter (determineTrue a i) := by
  induction registry generalizing plan with
  | nil =>
    unfold determine_corrections at h
    injection h with h
    subst h
    rfl
  | cons e rest ih =>
    unfold determine_corrections at h
    rcases hf : e.fn a i true false with err | v
    · rw [hf] at h
      exact absurd h (by simp)
    · rw [hf] at h
      rcases hr : determine_corrections rest a i with err2 | plan'
      · rw [hr] at h
        exact absurd h (by simp)
      · rw [hr] at h
        injection h with h
        rw [List.filter_cons]
        by_cases hv : v = some (.b true)
        · rw [if_pos hv] at h
          have hd : determineTrue a i e = true := by
            unfold determineTrue
            rw [hf, hv]
            simp
          simp only [hd, if_true]
          rw [← h, ih plan' hr]
        · rw [if_neg hv] at h
          have hd : determineTrue a i e = false := by
            unfold determineTrue
            rw [hf]
            rw [beq_eq_false_iff_ne]
            intro hc
            exact hv (by injection hc)
          simp only [hd, Bool.false_eq_true, if_false]
          rw [← h, ih plan' hr]

/-- C8 (confirmed).  A run's provenance attribute value is the
semicolon-joined concatenation of the (stripped) descriptions of exactly
those registered corrections whose determine phase returned true for the
pair, in registration order; corrections whose determine phase returned
false contribute nothing. -/
theorem C8_provenance (registry : List RegisteredCorrection)
    (a i : Dataset) (plan : List RegisteredCorrection)
    (h : determine_corrections registry a i = .ok plan) :
    plan = registry.filter (determineTrue a i) ∧
    ∀ out : Dataset,
      List.lookup "quality_control_operations"
        (write_provenance out plan).attrs =
      some (String.intercalate "; "
        ((registry.filter (determineTrue a i)).map
          (fun e => pyStrip e.desc))) := by
  have h1 := determine_corrections_filter registry a i plan h
  refine ⟨h1, fun out => ?_⟩
  unfold write_provenance
  rw [lookup_assocSet_self, h1]
  rfl

/-- Reference dataset for the C8 witness, with full coordinate metadata. -/
def c8wI : Dataset :=
  { time := ⟨[0, 1], timeAttsFull⟩, lat := ⟨[0], latAttsFull⟩,
    lon := ⟨[0, 180], lonAttsFull⟩,
    dataVars := [⟨"IVT", [[[1, 2]], [[3, 4]]], none, []⟩], attrs := [] }

/-- Candidate for the C8 witness: same grid and times, but missing time and
coordinate attributes, so exactly the two metadata-override corrections
apply. -/
def c8wA : Dataset :=
  { time := ⟨[0, 1], [("long_name", "time")]⟩, lat := ⟨[0], []⟩,
    lon := ⟨[0, 180], []⟩,
    dataVars := [⟨"ar_binary_tag", [[[0, 1]], [[1, 0]]], none, []⟩],
    attrs := [] }

/-- The plan `determine_corrections` computes on the C8 witness pair. -/
def c8plan : List RegisteredCorrection :=
  [⟨"override_time_values_and_metadata", override_time_values_and_metadata,
    " Override the time values and metadata with that from the input. "⟩,
   ⟨"override_coordinate_metadata", override_coordinate_metadata,
    " Override the lat/lon coordinate metadata with that from the input. "⟩]

/-- Witness for C8: on a pair where only the two metadata overrides apply,
the plan is exactly those two registry entries in registration order, and
the provenance attribute on the written dataset is their two stripped
docstrings joined with "; " — the corrections whose determine phase
returned false (the first three of the registry) contribute nothing. -/
theorem C8_provenance_witness :
    c8plan = all_corrections_list.filter (determineTrue c8wA c8wI) ∧
    List.lookup "quality_control_operations"
      (write_provenance c8wA c8plan).attrs =
    some ("Override the time values and metadata with that from the input.; Override the lat/lon coordinate metadata with that from the input.") :=
  ⟨(C8_provenance all_corrections_list c8wA c8wI c8plan rfl).1,
   ((C8_provenance all_corrections_list c8wA c8wI c8plan rfl).2 c8wA).trans
     (by decide)⟩

/-- Reference in signed convention for the C2 counterexample. -/
def c2ceI : Dataset :=
  { time := ⟨[0], timeAttsFull⟩, lat := ⟨[0], latAttsFull⟩,
    lon := ⟨[-90, 0, 90, 180], lonAttsFull⟩,
    dataVars := [⟨"IVT", [[[1, 2, 3, 4]]], none, []⟩], attrs := [] }

/-- Candidate in 0-360 convention whose grid is also rotated relative to
`c2ceI`. -/
def c2ceA : Dataset :=
  { time := ⟨[0], timeAttsFull⟩, lat := ⟨[0], latAttsFull⟩,
    lon := ⟨[0, 90, 180, 270], lonAttsFull⟩,
    dataVars := [⟨"ar_binary_tag", [[[0, 1, 0, 1]]], none, []⟩],
    attrs := [] }

/-- What the convention swap's apply phase produces on the pair. -/
def c2ceApplied : Dataset := getOk (swap_lon_convention_app c2ceA c2ceI) c2ceA

/-- C2 counterexample.  On this pair the longitude-convention correction's
determine phase returns true and its apply phase succeeds, but running the
determine phase again on the applied result raises `ConventionMismatch`
(the swapped longitudes are in the reference's convention yet in rotated
order), instead of returning false without error as the claim requires. -/
theorem C2_counterexample :
    swap_lon_convention c2ceA c2ceI true false = .ok (some (.b true)) ∧
    swap_lon_convention c2ceA c2ceI false true
      = .ok (some (.ds c2ceApplied)) ∧
    swap_lon_convention c2ceApplied c2ceI true false
      = .error .conventionMismatch :=
  ⟨rfl, rfl, rfl⟩

/-- Re-running the convention swap's determine phase on any dataset returns
false exactly when that dataset's longitudes already match the reference's;
in every other case it returns true or raises. -/
theorem swap_redetermine_iff (d i : Dataset) :
    swap_lon_convention d i true false = .ok (some (.b false)) ↔
      npAllClose i.lon.values d.lon.values = .ok true := by
  unfold swap_lon_convention swap_lon_convention_det
  rw [if_pos rfl]
  rcases h : npAllClose i.lon.values d.lon.values with e | b
  · constructor
    · intro hc
      simp [Except.map] at hc
    · intro hc
      exact absurd hc (by simp)
  · cases b
    · constructor
      · intro hc
        exfalso
        by_cases hq : (!(decide (lonMin i.lon.values < 0) &&
            decide (lonMax i.lon.values > 0))) ≠
            (!(decide (lonMin d.lon.values < 0) && !d.dataVars.isEmpty))
        · rw [if_pos (by simpa [bne_iff_ne] using hq)] at hc
          simp [Except.map] at hc
        · rw [if_neg (by simpa [bne_iff_ne] using hq)] at hc
          simp [Except.map] at hc
      · intro hc
        exact absurd hc (by simp)
    · constructor
      · intro _
        rfl
      · intro _
        rfl

/-- One application of the longitude rotation leaves a dataset whose
re-determine returns false: either the rolled longitudes match the
reference, or the zero is now at the reference's index so the recomputed
offset is zero. -/
theorem rotate_idempotent (a i out : Dataset) (ic ii : Nat)
    (hlen : i.lon.values.length = a.lon.values.length)
    (ha : firstZeroIdx a.lon.values = some ic)
    (hi : firstZeroIdx i.lon.values = some ii)
    (uniq : ∀ j1, j1 < a.lon.values.length → ∀ j2, j2 < a.lon.values.length →
      a.lon.values.getD j1 0 = 0 → a.lon.values.getD j2 0 = 0 → j1 = j2)
    (hdet : rotate_longitudes a i true false = .ok (some (.b true)))
    (happ : rotate_longitudes a i false true = .ok (some (.ds out))) :
    rotate_longitudes out i true false = .ok (some (.b false)) := by
  unfold rotate_longitudes rotate_longitudes_app at happ
  rw [if_neg Bool.false_ne_true, if_pos rfl, ha, hi] at happ
  simp only [Except.map, Except.ok.injEq, Option.some.injEq,
    Ret.ds.injEq] at happ
  subst happ
  have hrl : (rollDatasetLon a ((ii : Int) - (ic : Int))).lon.values
      = npRoll a.lon.values ((ii : Int) - (ic : Int)) := rfl
  unfold rotate_longitudes rotate_longitudes_det
  rw [if_pos rfl, hrl]
  have hiib : ii < i.lon.values.length := firstIdxOf_bound hi
  have hfz : firstZeroIdx (npRoll a.lon.values ((ii : Int) - (ic : Int)))
      = some ii := firstZeroIdx_npRoll ha (by omega) uniq
  rcases hc : npAllClose i.lon.values
      (npRoll a.lon.values ((ii : Int) - (ic : Int))) with e | b
  · rw [npAllClose_eq_ok_of_len (by rw [npRoll_length]; exact hlen)] at hc
    exact absurd hc (by simp)
  · cases b
    · simp [hfz, hi, Except.map]
    · rfl

/-- One application of the missing-timestep reindex leaves the time
lengths equal, so its re-determine returns false. -/
theorem insert_idempotent (a i out : Dataset)
    (happ : insert_missing_times a i false true = .ok (some (.ds out))) :
    insert_missing_times out i true false = .ok (some (.b false)) := by
  unfold insert_missing_times insert_missing_times_app at happ
  rw [if_neg Bool.false_ne_true, if_pos rfl] at happ
  rcases hx : xrReindexTime a i.time 0 with e | d
  · rw [hx] at happ
    exact absurd happ (by simp [Except.map])
  · rw [hx] at happ
    simp only [Except.map, Except.ok.injEq, Option.some.injEq,
      Ret.ds.injEq] at happ
    subst happ
    obtain ⟨ht, -, -, -, -⟩ := xrReindexTime_ok hx
    unfold insert_missing_times insert_missing_times_det
    rw [if_pos rfl, ht, if_neg (fun hne => hne rfl)]
    rfl

/-- One application of the time override (with the reference's four time
attributes all present) copies the reference's time coordinate wholesale,
so its re-determine returns false. -/
theorem override_time_idempotent (a i out : Dataset)
    (hatts : ∀ att ∈ checkTimeAtts, (List.lookup att i.time.attrs).isSome)
    (happ : override_time_values_and_metadata a i false true
      = .ok (some (.ds out))) :
    override_time_values_and_metadata out i true false
      = .ok (some (.b false)) := by
  unfold override_time_values_and_metadata
    override_time_values_and_metadata_app at happ
  rw [if_neg Bool.false_ne_true, if_pos rfl] at happ
  by_cases hlen : i.time.values.length = a.time.values.length
  · rw [if_neg (fun hne => hne hlen)] at happ
    simp only [Except.map, Except.ok.injEq, Option.some.injEq,
      Ret.ds.injEq] at happ
    subst happ
    obtain ⟨u1, h1⟩ := Option.isSome_iff_exists.mp
      (hatts "long_name" (by simp [checkTimeAtts]))
    obtain ⟨u2, h2⟩ := Option.isSome_iff_exists.mp
      (hatts "units" (by simp [checkTimeAtts]))
    obtain ⟨u3, h3⟩ := Option.isSome_iff_exists.mp
      (hatts "calendar" (by simp [checkTimeAtts]))
    obtain ⟨u4, h4⟩ := Option.isSome_iff_exists.mp
      (hatts "standard_name" (by simp [checkTimeAtts]))
    unfold override_time_values_and_metadata
      override_time_values_and_metadata_det
    rw [if_pos rfl]
    have htv : ({ a with time := i.time } : Dataset).time = i.time := rfl
    rw [htv, npAllClose_refl]
    unfold checkTimeAtts
    simp [h1, h2, h3, h4, Except.map]
  · rw [if_pos hlen] at happ
    exact absurd happ (by simp [Except.map])

/-- A successful copy of the three checked attributes makes every checked
attribute present on the result with the source's value. -/
theorem copyCheckedAtts_spec {src dst c' : Coord}
    (h : copyCheckedAtts src dst = .ok c') :
    ∀ att ∈ checkCoordAtts,
      ∃ v, List.lookup att src.attrs = some v ∧
        List.lookup att c'.attrs = some v := by
  unfold copyCheckedAtts checkCoordAtts at h
  simp only [copyAttsList] at h
  rcases h1 : List.lookup "long_name" src.attrs with _ | v1
  · simp only [h1] at h
    exact absurd h (by simp)
  · simp only [h1] at h
    rcases h2 : List.lookup "units" src.attrs with _ | v2
    · simp only [h2] at h
      exact absurd h (by simp)
    · simp only [h2] at h
      rcases h3 : List.lookup "standard_name" src.attrs with _ | v3
      · simp only [h3] at h
        exact absurd h (by simp)
      · simp only [h3, Except.ok.injEq] at h
        intro att hmem
        fin_cases hmem
        · refine ⟨v1, h1, ?_⟩
          rw [← h]
          show List.lookup "long_name" (assocSet (assocSet (assocSet
            dst.attrs "long_name" v1) "units" v2) "standard_name" v3)
            = some v1
          rw [lookup_assocSet_ne _ _ _ _ (by decide),
            lookup_assocSet_ne _ _ _ _ (by decide),
            lookup_assocSet_self]
        · refine ⟨v2, h2, ?_⟩
          rw [← h]
          show List.lookup "units" (assocSet (assocSet (assocSet
            dst.attrs "long_name" v1) "units" v2) "standard_name" v3)
            = some v2
          rw [lookup_assocSet_ne _ _ _ _ (by decide),
            lookup_assocSet_self]
        · refine ⟨v3, h3, ?_⟩
          rw [← h]
          show List.lookup "standard_name" (assocSet (assocSet (assocSet
            dst.attrs "long_name" v1) "units" v2) "standard_name" v3)
            = some v3
          rw [lookup_assocSet_self]

/-- One application of the coordinate-metadata override copies each checked
attribute from the reference, so its re-determine returns false. -/
theorem override_coord_idempotent (a i out : Dataset)
    (happ : override_coordinate_metadata a i false true
      = .ok (some (.ds out))) :
    override_coordinate_metadata out i true false
      = .ok (some (.b false)) := by
  unfold override_coordinate_metadata
    override_coordinate_metadata_app at happ
  rw [if_neg Bool.false_ne_true, if_pos rfl] at happ
  rcases hlat : copyCheckedAtts i.lat a.lat with e | lat'
  · rw [hlat] at happ
    exact absurd happ (by simp [Except.map])
  · rw [hlat] at happ
    rcases hlon : copyCheckedAtts i.lon a.lon with e | lon'
    · rw [hlon] at happ
      exact absurd happ (by simp [Except.map])
    · rw [hlon] at happ
      simp only [Except.map, Except.ok.injEq, Option.some.injEq,
        Ret.ds.injEq] at happ
      subst happ
      have hl := copyCheckedAtts_spec hlat
      have hn := copyCheckedAtts_spec hlon
      unfold override_coordinate_metadata
        override_coordinate_metadata_det
      rw [if_pos rfl]
      have e1 : ({ a with lat := lat', lon := lon' } : Dataset).lat
          = lat' := rfl
      have e2 : ({ a with lat := lat', lon := lon' } : Dataset).lon
          = lon' := rfl
      rw [e1, e2]
      have m1 : coordAttMismatch i.lat lat' "long_name" = false := by
        obtain ⟨v, hs, hd⟩ := hl "long_name" (by simp [checkCoordAtts])
        unfold coordAttMismatch
        rw [hs, hd]
        simp
      have m2 : coordAttMismatch i.lat lat' "units" = false := by
        obtain ⟨v, hs, hd⟩ := hl "units" (by simp [checkCoordAtts])
        unfold coordAttMismatch
        rw [hs, hd]
        simp
      have m3 : coordAttMismatch i.lat lat' "standard_name" = false := by
        obtain ⟨v, hs, hd⟩ := hl "standard_name" (by simp [checkCoordAtts])
        unfold coordAttMismatch
        rw [hs, hd]
        simp
      have m4 : coordAttMismatch i.lon lon' "long_name" = false := by
        obtain ⟨v, hs, hd⟩ := hn "long_name" (by simp [checkCoordAtts])
        unfold coordAttMismatch
        rw [hs, hd]
        simp
      have m5 : coordAttMismatch i.lon lon' "units" = false := by
        obtain ⟨v, hs, hd⟩ := hn "units" (by simp [checkCoordAtts])
        unfold coordAttMismatch
        rw [hs, hd]
        simp
      have m6 : coordAttMismatch i.lon lon' "standard_name" = false := by
        obtain ⟨v, hs, hd⟩ := hn "standard_name" (by simp [checkCoordAtts])
        unfold coordAttMismatch
        rw [hs, hd]
        simp
      unfold checkCoordAtts
      simp [m1, m2, m3, m4, m5, m6, Except.map]

/-- C2.  The claim (one application of any correction makes its determine
phase false, with no error) fails on the code — see `C2_counterexample`.
Amended: for a determine-true pair, apply-then-determine returns false
without error, provided (convention swap) the swapped longitudes reproduce
the reference's — and exactly then: otherwise the second determine does
not return false; (rotation) the longitude arrays have equal length and 0
occupies exactly one candidate position; (missing timesteps) the reindex
succeeded; (time override) the apply succeeded and the reference's four
checked time attributes are present; (coordinate metadata) the copy
succeeded. -/
theorem C2_idempotence_amended :
    (∀ a i out : Dataset,
      swap_lon_convention a i false true = .ok (some (.ds out)) →
      (swap_lon_convention out i true false = .ok (some (.b false)) ↔
        npAllClose i.lon.values out.lon.values = .ok true)) ∧
    (∀ a i out : Dataset, ∀ ic ii : Nat,
      i.lon.values.length = a.lon.values.length →
      firstZeroIdx a.lon.values = some ic →
      firstZeroIdx i.lon.values = some ii →
      (∀ j1, j1 < a.lon.values.length → ∀ j2, j2 < a.lon.values.length →
        a.lon.values.getD j1 0 = 0 → a.lon.values.getD j2 0 = 0 → j1 = j2) →
      rotate_longitudes a i true false = .ok (some (.b true)) →
      rotate_longitudes a i false true = .ok (some (.ds out)) →
      rotate_longitudes out i true false = .ok (some (.b false))) ∧
    (∀ a i out : Dataset,
      insert_missing_times a i true false = .ok (some (.b true)) →
      insert_missing_times a i false true = .ok (some (.ds out)) →
      insert_missing_times out i true false = .ok (some (.b false))) ∧
    (∀ a i out : Dataset,
      (∀ att ∈ checkTimeAtts, (List.lookup att i.time.attrs).isSome) →
      override_time_values_and_metadata a i false true
        = .ok (some (.ds out)) →
      override_time_values_and_metadata out i true false
        = .ok (some (.b false))) ∧
    (∀ a i out : Dataset,
      override_coordinate_metadata a i false true = .ok (some (.ds out)) →
      override_coordinate_metadata out i true false
        = .ok (some (.b false))) :=
  ⟨fun _ i out _ => swap_redetermine_iff out i,
   fun a i out ic ii hlen ha hi uniq hdet happ =>
     rotate_idempotent a i out ic ii hlen ha hi uniq hdet happ,
   fun a i out _ happ => insert_idempotent a i out happ,
   fun a i out hatts happ => override_time_idempotent a i out hatts happ,
   fun a i out happ => override_coord_idempotent a i out happ⟩

/-- Reference matching `c2ceA`'s post-swap longitudes (swap witness). -/
def c2wsI : Dataset :=
  { time := ⟨[0], timeAttsFull⟩, lat := ⟨[0], latAttsFull⟩,
    lon := ⟨[0, 90, 180, -90], lonAttsFull⟩,
    dataVars := [⟨"IVT", [[[1, 2, 3, 4]]], none, []⟩], attrs := [] }

def c2wsOut : Dataset := getOk (swap_lon_convention_app c2ceA c2wsI) c2ceA

/-- Reference equal to `c2ceA`'s longitudes rolled by two (rotation
witness). -/
def c2wrI : Dataset :=
  { time := ⟨[0], timeAttsFull⟩, lat := ⟨[0], latAttsFull⟩,
    lon := ⟨[180, 270, 0, 90], lonAttsFull⟩,
    dataVars := [⟨"IVT", [[[1, 2, 3, 4]]], none, []⟩], attrs := [] }

def c2wrOut : Dataset := getOk (rotate_longitudes_app c2ceA c2wrI) c2ceA

def c2wtOut : Dataset :=
  getOk (override_time_values_and_metadata_app c8wA c8wI) c8wA

def c2wcOut : Dataset :=
  getOk (override_coordinate_metadata_app c8wA c8wI) c8wA

/-- Witness for C2's amended statement: each correction evaluated at a
concrete determine-true pair satisfying its proviso. -/
theorem C2_idempotence_amended_witness :
    ((swap_lon_convention c2wsOut c2wsI true false = .ok (some (.b false)))
      ↔ (npAllClose c2wsI.lon.values c2wsOut.lon.values = .ok true)) ∧
    rotate_longitudes c2wrOut c2wrI true false = .ok (some (.b false)) ∧
    insert_missing_times c5wOut c5wI true false = .ok (some (.b false)) ∧
    override_time_values_and_metadata c2wtOut c8wI true false
      = .ok (some (.b false)) ∧
    override_coordinate_metadata c2wcOut c8wI true false
      = .ok (some (.b false)) :=
  ⟨C2_idempotence_amended.1 c2ceA c2wsI c2wsOut rfl,
   C2_idempotence_amended.2.1 c2ceA c2wrI c2wrOut 0 2 rfl rfl rfl
     (by decide) rfl rfl,
   C2_idempotence_amended.2.2.1 c5wA c5wI c5wOut rfl rfl,
   C2_idempotence_amended.2.2.2.1 c8wA c8wI c2wtOut (by decide) rfl,
   C2_idempotence_amended.2.2.2.2 c8wA c8wI c2wcOut rfl⟩

end ARTMIP
